import Mathlib

/-!
Verification of `src/agents/windows/wmiHelper.cc` (Check_MK Windows agent WMI
helper).  The definitions below are a shallow embedding of that file: the
Windows `VARIANT` union is modelled as a type tag plus the raw payload bits
(union members alias the same storage), HRESULT status codes are unsigned
32-bit naturals, the COM enumeration service is modelled as the list of
responses it will hand to successive `IEnumWbemClassObject::Next` calls, and
C++ exceptions become `Except` errors.
-/

set_option autoImplicit false

namespace wmi

/-! ### VARIANT type tags (VARENUM values from wtypes.h) -/

def VT_NULL : Nat := 1
def VT_I2 : Nat := 2
def VT_I4 : Nat := 3
def VT_R4 : Nat := 4
def VT_R8 : Nat := 5
def VT_BSTR : Nat := 8
def VT_BOOL : Nat := 11
def VT_I1 : Nat := 16
def VT_UI1 : Nat := 17
def VT_UI2 : Nat := 18
def VT_UI4 : Nat := 19
def VT_UI8 : Nat := 21
def VT_VECTOR : Nat := 0x1000
def VT_ARRAY : Nat := 0x2000

/-! ### WMI status codes (wbemcli.h), as unsigned 32-bit values -/

def WBEM_NO_ERROR : Nat := 0
def WBEM_S_FALSE : Nat := 1
def WBEM_S_TIMEDOUT : Nat := 0x40004
def WBEM_E_NOT_FOUND : Nat := 0x80041002
def WBEM_E_ACCESS_DENIED : Nat := 0x80041003
def WBEM_E_OUT_OF_MEMORY : Nat := 0x80041006
def WBEM_E_INVALID_PARAMETER : Nat := 0x80041008
def WBEM_E_INVALID_NAMESPACE : Nat := 0x8004100E
def WBEM_E_INVALID_CLASS : Nat := 0x80041010
def WBEM_E_TRANSPORT_FAILURE : Nat := 0x80041015
def WBEM_E_INVALID_QUERY : Nat := 0x80041017
def WBEM_E_UNEXPECTED : Nat := 0x8004101D

/-- The Windows `FAILED(hr)` predicate: an HRESULT is a failure status iff its
sign bit (bit 31 of the 32-bit value) is set. -/
def FAILED (h : Nat) : Bool := decide (2 ^ 31 ≤ h % 2 ^ 32)

/-! ### The VARIANT tagged union -/

/-- Reinterpretation of the low `w` bits of a stored bit pattern as a
two's-complement signed integer of width `w`. -/
def toSigned (n w : Nat) : Int :=
  if n % 2 ^ w < 2 ^ (w - 1) then ((n % 2 ^ w : Nat) : Int)
  else ((n % 2 ^ w : Nat) : Int) - 2 ^ w

/-- Model of a Windows `VARIANT`: the numeric type tag `vt` plus the raw bits
`bits` of the union payload.  All the numeric union members of a `VARIANT`
alias the same storage, so each member accessor below reinterprets `bits`.
`bstr` models the wide string addressed by the `bstrVal` pointer member
(meaningful when `vt = VT_BSTR`); wide strings are modelled as Lean strings. -/
structure VARIANT_t where
  vt : Nat
  bits : Nat
  bstr : String
  deriving DecidableEq

/-- The `bVal` union member (`BYTE`, unsigned 8-bit). -/
def VARIANT_t.bVal (v : VARIANT_t) : Nat := v.bits % 2 ^ 8

/-- The `cVal` union member (`CHAR`, signed 8-bit). -/
def VARIANT_t.cVal (v : VARIANT_t) : Int := toSigned v.bits 8

/-- The `iVal` union member (`SHORT`, signed 16-bit). -/
def VARIANT_t.iVal (v : VARIANT_t) : Int := toSigned v.bits 16

/-- The `uiVal` union member (`USHORT`, unsigned 16-bit). -/
def VARIANT_t.uiVal (v : VARIANT_t) : Nat := v.bits % 2 ^ 16

/-- The `intVal` union member (`INT`, signed 32-bit). -/
def VARIANT_t.intVal (v : VARIANT_t) : Int := toSigned v.bits 32

/-- The `ulVal` union member (`ULONG`, unsigned 32-bit). -/
def VARIANT_t.ulVal (v : VARIANT_t) : Nat := v.bits % 2 ^ 32

/-- The `ullVal` union member (`ULONGLONG`, unsigned 64-bit). -/
def VARIANT_t.ullVal (v : VARIANT_t) : Nat := v.bits % 2 ^ 64

/-- The `boolVal` union member (`VARIANT_BOOL`, a signed 16-bit integer). -/
def VARIANT_t.boolVal (v : VARIANT_t) : Int := toSigned v.bits 16

/-- The `fltVal` union member (`FLOAT`): modelled as its raw 32-bit pattern;
the IEEE interpretation of those bits is outside the embedding. -/
def VARIANT_t.fltVal (v : VARIANT_t) : Nat := v.bits % 2 ^ 32

/-! ### Error taxonomy -/

/-- The three exception kinds thrown by wmiHelper.cc: `ComException`
(protocol-level failure), `ComTypeException` (decode/type failure from
`Variant::get`), and `Timeout` (thrown only by `Result::next`). -/
inductive WmiError where
  | comException (msg : String)
  | comTypeException (msg : String)
  | timeout (msg : String)
  deriving DecidableEq

/-- `ComException::toStringHex`: the HRESULT formatted by `out << hex << res`,
i.e. lowercase hexadecimal digits without leading zeros (iostreams print the
unsigned 32-bit representation in hex format). -/
def ComException.toStringHex (res : Nat) : String := String.mk (Nat.toDigits 16 res)

/-- `ComException::resolveError`.  The switch is over
`static_cast<ULONG>(result)`, which our unsigned model already is.  `generic`
models the `_com_error(result, getErrorInfo(winapi)).ErrorMessage()` system
lookup used for every status other than the four named ones. -/
def ComException.resolveError (result : Nat) (generic : Nat → String) : String :=
  if result = WBEM_E_INVALID_NAMESPACE then "Invalid Namespace"
  else if result = WBEM_E_ACCESS_DENIED then "Access Denied"
  else if result = WBEM_E_INVALID_CLASS then "Invalid Class"
  else if result = WBEM_E_INVALID_QUERY then "Invalid Query"
  else generic result

/-- The `what()` message assembled by the `ComException` constructor:
`message + ": " + resolveError(result, winapi) + " (" + toStringHex(result) + ")"`. -/
def ComException.message (message : String) (result : Nat) (generic : Nat → String) : String :=
  message ++ ": " ++ ComException.resolveError result generic ++ " (" ++
    ComException.toStringHex result ++ ")"

/-! ### Variant::get specializations -/

/-- `Variant::get<int>`.  Note the union member reads taken verbatim from the
source: the `VT_I1` (signed 8-bit) branch returns `_value.bVal`, which is the
unsigned `BYTE` member, and the `VT_UI1` (unsigned 8-bit) branch returns
`_value.cVal`, which is the signed `CHAR` member.  The `VT_UI4` branch returns
`_value.intVal` (signed reinterpretation of the 32 bits). -/
def Variant.getInt (v : VARIANT_t) : Except WmiError Int :=
  if v.vt = VT_I1 then .ok (v.bVal : Int)
  else if v.vt = VT_I2 then .ok v.iVal
  else if v.vt = VT_I4 then .ok v.intVal
  else if v.vt = VT_UI1 then .ok v.cVal
  else if v.vt = VT_UI2 then .ok (v.uiVal : Int)
  else if v.vt = VT_UI4 then .ok v.intVal
  else .error (.comTypeException ("wrong value type requested: " ++ toString v.vt))

/-- `Variant::get<bool>`: `VT_BOOL` only; the `VARIANT_BOOL` payload converts
to a C++ `bool` as nonzero-is-true. -/
def Variant.getBool (v : VARIANT_t) : Except WmiError Bool :=
  if v.vt = VT_BOOL then .ok (decide (v.boolVal ≠ 0))
  else .error (.comTypeException ("wrong value type requested: " ++ toString v.vt))

/-- `Variant::get<ULONG>`.  The `VT_UI1` branch returns `_value.cVal` (the
signed `CHAR` member); its conversion to the unsigned 32-bit return type is
reduction modulo 2^32. -/
def Variant.getULONG (v : VARIANT_t) : Except WmiError Nat :=
  if v.vt = VT_UI1 then .ok ((v.cVal % (2 ^ 32 : Int)).toNat)
  else if v.vt = VT_UI2 then .ok v.uiVal
  else if v.vt = VT_UI4 then .ok v.ulVal
  else .error (.comTypeException ("wrong value type requested: " ++ toString v.vt))

/-- `Variant::get<ULONGLONG>`: `VT_UI8` only. -/
def Variant.getULONGLONG (v : VARIANT_t) : Except WmiError Nat :=
  if v.vt = VT_UI8 then .ok v.ullVal
  else .error (.comTypeException ("wrong value type requested: " ++ toString v.vt))

/-- `to_utf8` (stringutil): UTF-16 to UTF-8 transcoding.  Both encodings are
modelled as Lean strings, so the transcoding is the identity. -/
def to_utf8 (s : String) : String := s

/-- `Variant::get<string>`: `VT_BSTR` only, transcoded via `to_utf8`. -/
def Variant.getString (v : VARIANT_t) : Except WmiError String :=
  if v.vt = VT_BSTR then .ok (to_utf8 v.bstr)
  else .error (.comTypeException ("wrong value type requested: " ++ toString v.vt))

/-- `Variant::get<float>`: `VT_R4` only; the float value is represented by its
raw 32-bit pattern (`fltVal`). -/
def Variant.getFloat (v : VARIANT_t) : Except WmiError Nat :=
  if v.vt = VT_R4 then .ok v.fltVal
  else .error (.comTypeException ("wrong value type requested: " ++ toString v.vt))

/-- Value returned by `Variant::get<double>`: either a 32-bit float widened to
double (the widening is exact, so the float32 bit pattern is a faithful
representation of the resulting double) or a native 64-bit float. -/
inductive FloatVal where
  | f32 (bits : Nat)
  | f64 (bits : Nat)
  deriving DecidableEq

/-- `Variant::get<double>`: `VT_R4` (widened exactly) or `VT_R8`. -/
def Variant.getDouble (v : VARIANT_t) : Except WmiError FloatVal :=
  if v.vt = VT_R4 then .ok (.f32 (v.bits % 2 ^ 32))
  else if v.vt = VT_R8 then .ok (.f64 (v.bits % 2 ^ 64))
  else .error (.comTypeException ("wrong value type requested: " ++ toString v.vt))

/-- Models `std::to_wstring` applied to the float obtained from
`Variant::get<float>`; the decimal formatting of floats is outside the
embedding, so an injective placeholder rendering of the bits is used.  No
claim depends on this text. -/
def to_wstring_float (bits : Nat) : String := "float32 bits " ++ toString bits

/-- Models `std::to_wstring` applied to the double obtained from
`Variant::get<double>`; same caveat as `to_wstring_float`. -/
def to_wstring_double : FloatVal → String
  | .f32 b => "double of float32 bits " ++ toString b
  | .f64 b => "double bits " ++ toString b

/-- `Variant::get<wstring>`: checks the `VT_ARRAY` and `VT_VECTOR` composite
bits first, then switches on the tag; numeric and boolean tags are stringified
through the typed extractors (`std::to_wstring` of an integral value is its
decimal rendering, and a C++ `bool` converts to `0`/`1`); `VT_NULL` yields the
empty string. -/
def Variant.getWstring (v : VARIANT_t) : Except WmiError String :=
  if v.vt &&& VT_ARRAY ≠ 0 then .ok "<array>"
  else if v.vt &&& VT_VECTOR ≠ 0 then .ok "<vector>"
  else if v.vt = VT_BSTR then .ok v.bstr
  else if v.vt = VT_R4 then (Variant.getFloat v).map to_wstring_float
  else if v.vt = VT_R8 then (Variant.getDouble v).map to_wstring_double
  else if v.vt = VT_I1 ∨ v.vt = VT_I2 ∨ v.vt = VT_I4 then
    (Variant.getInt v).map (fun n => toString n)
  else if v.vt = VT_UI1 ∨ v.vt = VT_UI2 ∨ v.vt = VT_UI4 then
    (Variant.getULONG v).map (fun n => toString n)
  else if v.vt = VT_UI8 then (Variant.getULONGLONG v).map (fun n => toString n)
  else if v.vt = VT_BOOL then (Variant.getBool v).map (fun b => toString (if b then 1 else 0))
  else if v.vt = VT_NULL then .ok ""
  else .error (.comTypeException ("wrong value type requested: " ++ toString v.vt))

/-- `Variant::type()`: the raw tag. -/
def Variant.type (v : VARIANT_t) : Nat := v.vt

/-! ### Record wrapper (ObjectWrapper) -/

/-- A WBEM class object, i.e. one instrumentation record: its named fields.
An entry `(k, .ok v)` means `IWbemClassObject::Get(k, 0, &value, ...)`
succeeds and writes the VARIANT `v`; an entry `(k, .error h)` means `Get(k)`
returns the failing HRESULT `h`; a key that is absent fails with
`WBEM_E_NOT_FOUND` (the status the COM object returns for an unknown
property). -/
abbrev WbemObject := List (String × Except Nat VARIANT_t)

instance {α β : Type} [DecidableEq α] [DecidableEq β] : DecidableEq (Except α β)
  | .ok x, .ok y =>
    if h : x = y then .isTrue (by rw [h]) else .isFalse (fun hc => h (Except.ok.inj hc))
  | .ok _, .error _ => .isFalse (fun hc => Except.noConfusion hc)
  | .error _, .ok _ => .isFalse (fun hc => Except.noConfusion hc)
  | .error x, .error y =>
    if h : x = y then .isTrue (by rw [h]) else .isFalse (fun hc => h (Except.error.inj hc))

/-- `IWbemClassObject::Get`: `.error h` models the call returning a failing
HRESULT `h` (so `FAILED(res)` holds), `.ok v` models success with value `v`. -/
def WbemObject.Get (obj : WbemObject) (key : String) : Except Nat VARIANT_t :=
  match List.lookup key obj with
  | none => .error WBEM_E_NOT_FOUND
  | some r => r

/-- `ObjectWrapper::contains`: fetches the field, returns `false` if the fetch
fails, otherwise whether the value's tag is not `VT_NULL`.  Total by
construction — it never propagates a failure. -/
def ObjectWrapper.contains (obj : WbemObject) (key : String) : Bool :=
  match WbemObject.Get obj key with
  | .error _ => false
  | .ok value => decide (value.vt ≠ VT_NULL)

/-- `ObjectWrapper::typeId`: the raw tag of the field, or `0` if the fetch
fails. -/
def ObjectWrapper.typeId (obj : WbemObject) (key : String) : Nat :=
  match WbemObject.Get obj key with
  | .error _ => 0
  | .ok value => value.vt

/-- `ObjectWrapper::getVarByKey`: fetches the field; on a failing fetch throws
a `ComException` naming the key; on success hands the VARIANT to the caller. -/
def ObjectWrapper.getVarByKey (obj : WbemObject) (key : String)
    (generic : Nat → String) : Except WmiError VARIANT_t :=
  match WbemObject.Get obj key with
  | .error res =>
    .error (.comException
      (ComException.message ("Failed to retrieve key: " ++ to_utf8 key) res generic))
  | .ok value => .ok value

/-! ### Result cursor -/

/-- One response of the external enumeration service to
`IEnumWbemClassObject::Next(2500, 1, &obj, &numReturned)`: the HRESULT and,
when `hres = WBEM_NO_ERROR`, the retrieved object (on any other status the
C++ out-parameter is never read). -/
structure NextResp where
  hres : Nat
  obj : WbemObject
  deriving DecidableEq

/-- The fields of a `Result` object: `_enumerator` (modelled as `some ()` for
a non-null `IEnumWbemClassObject*` and `none` for the null pointer; the
responses the live enumerator will produce are threaded separately as the
external service state), `_current` (the inherited `ObjectWrapper` smart
pointer, `none` = null), and `_last_error` (declared in wmiHelper.h with
initial value `S_OK` = 0). -/
structure ResultState where
  enumerator : Option Unit
  current : Option WbemObject
  last_error : Nat
  deriving DecidableEq

/-- `Result::valid`: whether `_current.get() != nullptr`. -/
def Result.valid (r : ResultState) : Bool := r.current.isSome

/-- `Result::next`.  `svc` is the stream of responses the external enumerator
will give to successive `Next` calls; an exhausted stream keeps answering
`WBEM_S_FALSE`, matching a COM enumerator that stays at its end.  Returns the
remaining stream, the updated `Result` fields (unchanged when the C++ method
throws), and the outcome: `.ok b` for `return b`, `.error` for a thrown
exception. -/
def Result.next (svc : List NextResp) (r : ResultState) :
    List NextResp × ResultState × Except WmiError Bool :=
  match r.enumerator, svc with
  | none, _ => (svc, r, .ok false)
  | some _, [] => (svc, r, .ok false)
  | some _, resp :: rest =>
    if resp.hres = WBEM_NO_ERROR then
      (rest, { r with current := some resp.obj }, .ok true)
    else if resp.hres = WBEM_S_FALSE then
      -- No more values. The current object remains at the last element.
      (rest, r, .ok false)
    else if resp.hres = WBEM_S_TIMEDOUT then
      (rest, r, .error (.timeout "WMItimeout"))
    else
      -- WBEM_E_INVALID_PARAMETER, WBEM_E_OUT_OF_MEMORY, WBEM_E_UNEXPECTED or
      -- WBEM_E_TRANSPORT_FAILURE: "current" is not changed.
      (rest, { r with last_error := resp.hres }, .ok false)

/-- The `Result(IEnumWbemClassObject*, ...)` constructor: starts from a
non-null enumerator and a null current object, performs one `next()`; if that
first advance returns `false` the enumerator is discarded (set to null); if it
throws, the exception propagates out of the constructor. -/
def Result.construct (svc : List NextResp) : List NextResp × Except WmiError ResultState :=
  let r0 : ResultState := { enumerator := some (), current := none, last_error := WBEM_NO_ERROR }
  match Result.next svc r0 with
  | (rest, r1, .ok true) => (rest, .ok r1)
  | (rest, r1, .ok false) => (rest, .ok { r1 with enumerator := none })
  | (rest, _, .error e) => (rest, .error e)

/-! ### Session (Helper) -/

/-- `Helper::query`: `res` is the HRESULT of
`IWbemServices::ExecQuery(L"WQL", query, ...)` and `stream` the response
stream of the enumerator it produced.  A failing HRESULT throws a
`ComException` naming the query text; otherwise the enumerator is wrapped in
a `Result`, whose constructor performs the implicit first advance. -/
def Helper.query (query : String) (res : Nat) (stream : List NextResp)
    (generic : Nat → String) : Except WmiError ResultState :=
  if FAILED res then
    .error (.comException (ComException.message
      ("Failed to execute query \"" ++ to_utf8 query ++ "\"") res generic))
  else (Result.construct stream).2

/-- `Helper::getClass`: same shape as `Helper::query` for
`IWbemServices::CreateInstanceEnum`. -/
def Helper.getClass (className : String) (res : Nat) (stream : List NextResp)
    (generic : Nat → String) : Except WmiError ResultState :=
  if FAILED res then
    .error (.comException (ComException.message
      ("Failed to enum class \"" ++ to_utf8 className ++ "\"") res generic))
  else (Result.construct stream).2

/-! ### Process-wide COM guard (COMManager) -/

/-- Environment of `COMManager`: the HRESULTs the two Windows calls would
return in this process, and the generic error-message resolver. -/
structure COMEnv where
  coInitExResult : Nat
  coInitSecurityResult : Nat
  generic : Nat → String

/-- Observable state of the `COMManager` magic static: whether the
`s_Instance` local static has been fully constructed, and how many times each
of the two underlying calls (`CoInitializeEx`, `CoInitializeSecurity`) has
been executed. -/
structure COMState where
  constructed : Bool
  coInitExRuns : Nat
  coInitSecurityRuns : Nat
  deriving DecidableEq

/-- The process state before any `COMManager::init` call. -/
def freshCOMState : COMState := { constructed := false, coInitExRuns := 0, coInitSecurityRuns := 0 }

/-- `COMManager::init`: C++11 guarantees the block-scope static `s_Instance`
is constructed exactly once, with racing callers serialized and blocked until
construction completes (the code cites C++11 §6.4 / C++14 §6.7); an exception
from the constructor leaves it unconstructed.  This models one (serialized)
call: if the static is already constructed nothing runs; otherwise the
constructor body runs — the COM subsystem call in `COINIT_MULTITHREADED` mode
first, then the security/impersonation call — throwing a `ComException` if
either fails. -/
def COMManager.init (env : COMEnv) (s : COMState) : COMState × Except WmiError Unit :=
  if s.constructed then (s, .ok ())
  else
    let s1 := { s with coInitExRuns := s.coInitExRuns + 1 }
    if FAILED env.coInitExResult then
      (s1, .error (.comException (ComException.message
        "Failed to initialize COM" env.coInitExResult env.generic)))
    else
      let s2 := { s1 with coInitSecurityRuns := s1.coInitSecurityRuns + 1 }
      if FAILED env.coInitSecurityResult then
        (s2, .error (.comException (ComException.message
          "Failed to initialize COM security" env.coInitSecurityResult env.generic)))
      else ({ s2 with constructed := true }, .ok ())

/-- `n` successive (serialized) calls of `COMManager::init`. -/
def COMManager.initN (env : COMEnv) : Nat → COMState → COMState
  | 0, s => s
  | n + 1, s => COMManager.initN env n (COMManager.init env s).1

/-! ### Unfolding lemmas for the cursor -/

theorem next_null_enum (svc : List NextResp) (r : ResultState) (h : r.enumerator = none) :
    Result.next svc r = (svc, r, Except.ok false) := by
  unfold Result.next
  rw [h]

theorem next_some_cons (r : ResultState) (resp : NextResp) (rest : List NextResp)
    (h : r.enumerator = some ()) :
    Result.next (resp :: rest) r =
      (if resp.hres = WBEM_NO_ERROR then
        (rest, { r with current := some resp.obj }, Except.ok true)
      else if resp.hres = WBEM_S_FALSE then (rest, r, Except.ok false)
      else if resp.hres = WBEM_S_TIMEDOUT then
        (rest, r, Except.error (WmiError.timeout "WMItimeout"))
      else (rest, { r with last_error := resp.hres }, Except.ok false)) := by
  unfold Result.next
  rw [h]

theorem construct_cons (resp : NextResp) (rest : List NextResp) :
    Result.construct (resp :: rest) =
      (if resp.hres = WBEM_NO_ERROR then
        (rest, Except.ok { enumerator := some (), current := some resp.obj, last_error := 0 })
      else if resp.hres = WBEM_S_FALSE then
        (rest, Except.ok { enumerator := none, current := none, last_error := 0 })
      else if resp.hres = WBEM_S_TIMEDOUT then
        (rest, Except.error (WmiError.timeout "WMItimeout"))
      else
        (rest, Except.ok { enumerator := none, current := none, last_error := resp.hres })) := by
  simp only [Result.construct]
  rw [next_some_cons _ resp rest rfl]
  by_cases h0 : resp.hres = WBEM_NO_ERROR
  · rw [if_pos h0, if_pos h0]
    rfl
  · rw [if_neg h0, if_neg h0]
    by_cases hf : resp.hres = WBEM_S_FALSE
    · rw [if_pos hf, if_pos hf]
      rfl
    · rw [if_neg hf, if_neg hf]
      by_cases ht : resp.hres = WBEM_S_TIMEDOUT
      · rw [if_pos ht, if_pos ht]
      · rw [if_neg ht, if_neg ht]

/-- The outcome the first `Next` call reports to the `Result` constructor is
"no more": either the response stream is already exhausted, or the first
response carries neither the success status nor the timeout status. -/
def firstAdvanceNoMore : List NextResp → Prop
  | [] => True
  | resp :: _ => resp.hres ≠ WBEM_NO_ERROR ∧ resp.hres ≠ WBEM_S_TIMEDOUT

instance firstAdvanceNoMore.dec : (svc : List NextResp) → Decidable (firstAdvanceNoMore svc)
  | [] => Decidable.isTrue trivial
  | _ :: _ => inferInstanceAs (Decidable (_ ∧ _))

/-! ### Claim theorems -/

/-- C1: the claim states that every accepted (tag, requested-type) pair is
extracted by widening — in particular that a signed-8 tagged value `v`
extracts as int32 to `v`, an unsigned-8 tagged value `v` extracts as int32 and
as unsigned-32 to `v`, and unsigned-16 value 300 extracts as int32 to 300.
The code violates the 8-bit cases: `Variant::get<int>` reads the unsigned
`bVal` member for `VT_I1` and the signed `cVal` member for `VT_UI1` (the two
members are swapped), and `Variant::get<ULONG>` also reads `cVal` for
`VT_UI1`.  Evaluating the code at the failing inputs: the signed-8 value −1
(bit pattern 255) extracts as int32 to 255, the unsigned-8 value 200 extracts
as int32 to −56 and as unsigned-32 to 4294967240.  The unsigned-16 example
from the spec does hold (last conjunct). -/
theorem c1_int8_extraction_bug :
    Variant.getInt { vt := VT_I1, bits := 255, bstr := "" } = Except.ok 255 ∧
    Variant.getInt { vt := VT_UI1, bits := 200, bstr := "" } = Except.ok (-56) ∧
    Variant.getULONG { vt := VT_UI1, bits := 200, bstr := "" } = Except.ok 4294967240 ∧
    Variant.getInt { vt := VT_UI2, bits := 300, bstr := "" } = Except.ok 300 := by
  decide

/-- C2: for every (tag, requested-type) pair not in the accepted table of
§4.1, `Variant::get<T>` fails with a `ComTypeException` (a decode failure, a
distinct kind from the protocol-level `ComException`) whose message names the
raw numeric tag value; it never coerces or returns a default.  One conjunct
per extraction target type, each under the hypothesis that the tag is outside
that type's accepted set. -/
theorem c2_unlisted_pair_decode_failure (v : VARIANT_t) :
    (v.vt ≠ VT_I1 → v.vt ≠ VT_I2 → v.vt ≠ VT_I4 → v.vt ≠ VT_UI1 → v.vt ≠ VT_UI2 →
      v.vt ≠ VT_UI4 →
      Variant.getInt v =
        Except.error (WmiError.comTypeException ("wrong value type requested: " ++ toString v.vt))) ∧
    (v.vt ≠ VT_BOOL →
      Variant.getBool v =
        Except.error (WmiError.comTypeException ("wrong value type requested: " ++ toString v.vt))) ∧
    (v.vt ≠ VT_UI1 → v.vt ≠ VT_UI2 → v.vt ≠ VT_UI4 →
      Variant.getULONG v =
        Except.error (WmiError.comTypeException ("wrong value type requested: " ++ toString v.vt))) ∧
    (v.vt ≠ VT_UI8 →
      Variant.getULONGLONG v =
        Except.error (WmiError.comTypeException ("wrong value type requested: " ++ toString v.vt))) ∧
    (v.vt ≠ VT_BSTR →
      Variant.getString v =
        Except.error (WmiError.comTypeException ("wrong value type requested: " ++ toString v.vt))) ∧
    (v.vt ≠ VT_R4 →
      Variant.getFloat v =
        Except.error (WmiError.comTypeException ("wrong value type requested: " ++ toString v.vt))) ∧
    (v.vt ≠ VT_R4 → v.vt ≠ VT_R8 →
      Variant.getDouble v =
        Except.error (WmiError.comTypeException ("wrong value type requested: " ++ toString v.vt))) ∧
    (v.vt &&& VT_ARRAY = 0 → v.vt &&& VT_VECTOR = 0 →
      v.vt ∉ ([VT_BSTR, VT_R4, VT_R8, VT_I1, VT_I2, VT_I4, VT_UI1, VT_UI2, VT_UI4,
        VT_UI8, VT_BOOL, VT_NULL] : List Nat) →
      Variant.getWstring v =
        Except.error (WmiError.comTypeException ("wrong value type requested: " ++ toString v.vt))) := by
  refine ⟨?_, ?_, ?_, ?_, ?_, ?_, ?_, ?_⟩
  · intro h1 h2 h3 h4 h5 h6
    simp [Variant.getInt, h1, h2, h3, h4, h5, h6]
  · intro h1
    simp [Variant.getBool, h1]
  · intro h1 h2 h3
    simp [Variant.getULONG, h1, h2, h3]
  · intro h1
    simp [Variant.getULONGLONG, h1]
  · intro h1
    simp [Variant.getString, h1]
  · intro h1
    simp [Variant.getFloat, h1]
  · intro h1 h2
    simp [Variant.getDouble, h1, h2]
  · intro hA hV hm
    simp only [List.mem_cons, List.not_mem_nil, or_false] at hm
    push_neg at hm
    obtain ⟨h1, h2, h3, h4, h5, h6, h7, h8, h9, h10, h11, h12⟩ := hm
    simp [Variant.getWstring, hA, hV, h1, h2, h3, h4, h5, h6, h7, h8, h9, h10, h11, h12]

/-- Witness for C2 at the concrete rejected tag `VT_EMPTY` (0): every one of
the eight extraction targets fails with the decode error naming tag 0. -/
theorem c2_witness :
    Variant.getInt { vt := 0, bits := 0, bstr := "" } =
      Except.error (WmiError.comTypeException ("wrong value type requested: " ++ toString (0 : Nat))) ∧
    Variant.getBool { vt := 0, bits := 0, bstr := "" } =
      Except.error (WmiError.comTypeException ("wrong value type requested: " ++ toString (0 : Nat))) ∧
    Variant.getULONG { vt := 0, bits := 0, bstr := "" } =
      Except.error (WmiError.comTypeException ("wrong value type requested: " ++ toString (0 : Nat))) ∧
    Variant.getULONGLONG { vt := 0, bits := 0, bstr := "" } =
      Except.error (WmiError.comTypeException ("wrong value type requested: " ++ toString (0 : Nat))) ∧
    Variant.getString { vt := 0, bits := 0, bstr := "" } =
      Except.error (WmiError.comTypeException ("wrong value type requested: " ++ toString (0 : Nat))) ∧
    Variant.getFloat { vt := 0, bits := 0, bstr := "" } =
      Except.error (WmiError.comTypeException ("wrong value type requested: " ++ toString (0 : Nat))) ∧
    Variant.getDouble { vt := 0, bits := 0, bstr := "" } =
      Except.error (WmiError.comTypeException ("wrong value type requested: " ++ toString (0 : Nat))) ∧
    Variant.getWstring { vt := 0, bits := 0, bstr := "" } =
      Except.error (WmiError.comTypeException ("wrong value type requested: " ++ toString (0 : Nat))) := by
  have h := c2_unlisted_pair_decode_failure { vt := 0, bits := 0, bstr := "" }
  exact ⟨h.1 (by decide) (by decide) (by decide) (by decide) (by decide) (by decide),
    h.2.1 (by decide),
    h.2.2.1 (by decide) (by decide) (by decide),
    h.2.2.2.1 (by decide),
    h.2.2.2.2.1 (by decide),
    h.2.2.2.2.2.1 (by decide),
    h.2.2.2.2.2.2.1 (by decide) (by decide),
    h.2.2.2.2.2.2.2 (by decide) (by decide) (by decide)⟩

/-- C3: when the implicit first advance performed by the `Result` constructor
reports "no more" — the enumeration is exhausted at once, ends cleanly with
`WBEM_S_FALSE`, or hits a hard error that `next` swallows — the constructed
cursor has a null enumeration handle, `valid()` is false, and every later
advance returns "no more" without touching the service or the cursor; it
behaves, through `valid` and `next`, exactly like a cursor constructed over a
genuinely empty result set (stream `[]`). -/
theorem c3_first_advance_no_more_collapses (svc : List NextResp)
    (h : firstAdvanceNoMore svc) :
    ∃ r, (Result.construct svc).2 = Except.ok r ∧
      r.enumerator = none ∧
      Result.valid r = false ∧
      (∀ s2, Result.next s2 r = (s2, r, Except.ok false)) ∧
      ∃ r0, (Result.construct []).2 = Except.ok r0 ∧
        Result.valid r0 = Result.valid r ∧
        (∀ s2, Result.next s2 r0 = (s2, r0, Except.ok false)) := by
  have hempty : (Result.construct []).2 =
      Except.ok { enumerator := none, current := none, last_error := 0 } := rfl
  cases svc with
  | nil =>
    refine ⟨{ enumerator := none, current := none, last_error := 0 }, hempty, rfl, rfl,
      fun s2 => next_null_enum s2 _ rfl,
      { enumerator := none, current := none, last_error := 0 }, hempty, rfl,
      fun s2 => next_null_enum s2 _ rfl⟩
  | cons resp rest =>
    obtain ⟨h1, h2⟩ := h
    rw [construct_cons resp rest]
    by_cases hf : resp.hres = WBEM_S_FALSE
    · rw [if_neg h1, if_pos hf]
      exact ⟨{ enumerator := none, current := none, last_error := 0 }, rfl, rfl, rfl,
        fun s2 => next_null_enum s2 _ rfl,
        { enumerator := none, current := none, last_error := 0 }, hempty, rfl,
        fun s2 => next_null_enum s2 _ rfl⟩
    · rw [if_neg h1, if_neg hf, if_neg h2]
      exact ⟨{ enumerator := none, current := none, last_error := resp.hres }, rfl, rfl, rfl,
        fun s2 => next_null_enum s2 _ rfl,
        { enumerator := none, current := none, last_error := 0 }, hempty, rfl,
        fun s2 => next_null_enum s2 _ rfl⟩

/-- Witness for C3 at a concrete stream whose first response is a transport
failure (a swallowed hard error). -/
theorem c3_witness :
    firstAdvanceNoMore [({ hres := WBEM_E_TRANSPORT_FAILURE, obj := [] } : NextResp)] ∧
    ∃ r, (Result.construct [({ hres := WBEM_E_TRANSPORT_FAILURE, obj := [] } : NextResp)]).2 =
        Except.ok r ∧
      r.enumerator = none ∧
      Result.valid r = false ∧
      (∀ s2, Result.next s2 r = (s2, r, Except.ok false)) ∧
      ∃ r0, (Result.construct []).2 = Except.ok r0 ∧
        Result.valid r0 = Result.valid r ∧
        (∀ s2, Result.next s2 r0 = (s2, r0, Except.ok false)) :=
  ⟨by decide, c3_first_advance_no_more_collapses _ (by decide)⟩

/-- C4: with a non-null enumeration handle, an advance that receives any
status other than success, "no more available", or timeout does not raise: it
returns "no more" (`.ok false`) and the only field it changes is
`_last_error`, which records the status — `_current` and `_enumerator` are
untouched. -/
theorem c4_hard_error_recorded_as_no_more (r : ResultState) (resp : NextResp)
    (rest : List NextResp) (henum : r.enumerator = some ())
    (h1 : resp.hres ≠ WBEM_NO_ERROR) (h2 : resp.hres ≠ WBEM_S_FALSE)
    (h3 : resp.hres ≠ WBEM_S_TIMEDOUT) :
    Result.next (resp :: rest) r =
      (rest, { r with last_error := resp.hres }, Except.ok false) ∧
    ({ r with last_error := resp.hres } : ResultState).current = r.current ∧
    ({ r with last_error := resp.hres } : ResultState).enumerator = r.enumerator := by
  refine ⟨?_, rfl, rfl⟩
  rw [next_some_cons r resp rest henum, if_neg h1, if_neg h2, if_neg h3]

/-- Witness for C4: an out-of-memory status on a cursor holding a current
record is swallowed into `_last_error`. -/
theorem c4_witness :
    Result.next [({ hres := WBEM_E_OUT_OF_MEMORY, obj := [] } : NextResp)]
      { enumerator := some (), current := some [], last_error := 0 } =
      ([], { enumerator := some (), current := some [], last_error := WBEM_E_OUT_OF_MEMORY },
        Except.ok false) ∧
    ({ enumerator := some (), current := some [],
        last_error := WBEM_E_OUT_OF_MEMORY } : ResultState).current =
      ({ enumerator := some (), current := some [], last_error := 0 } : ResultState).current ∧
    ({ enumerator := some (), current := some [],
        last_error := WBEM_E_OUT_OF_MEMORY } : ResultState).enumerator =
      ({ enumerator := some (), current := some [], last_error := 0 } : ResultState).enumerator :=
  c4_hard_error_recorded_as_no_more
    { enumerator := some (), current := some [], last_error := 0 }
    { hres := WBEM_E_OUT_OF_MEMORY, obj := [] } [] rfl (by decide) (by decide) (by decide)

/-- C5: with a non-null enumeration handle, an advance that receives the
timeout status throws the distinct `Timeout` failure kind (a different
constructor from both `ComException` and `ComTypeException`, hence separately
catchable) and returns the cursor state exactly as it was — current record,
enumeration handle and last recorded error untouched — so the advance can be
retried. -/
theorem c5_timeout_raises_and_preserves_state (r : ResultState) (obj : WbemObject)
    (rest : List NextResp) (henum : r.enumerator = some ()) :
    Result.next ({ hres := WBEM_S_TIMEDOUT, obj := obj } :: rest) r =
      (rest, r, Except.error (WmiError.timeout "WMItimeout")) ∧
    (∀ m, WmiError.timeout "WMItimeout" ≠ WmiError.comException m) ∧
    (∀ m, WmiError.timeout "WMItimeout" ≠ WmiError.comTypeException m) := by
  refine ⟨?_, ?_, ?_⟩
  · rw [next_some_cons r _ rest henum]
    simp [WBEM_S_TIMEDOUT, WBEM_NO_ERROR, WBEM_S_FALSE]
  · intro m hc
    cases hc
  · intro m hc
    cases hc

/-- Witness for C5 on a concrete cursor holding a record. -/
theorem c5_witness :
    Result.next [({ hres := WBEM_S_TIMEDOUT, obj := [] } : NextResp)]
      { enumerator := some (), current := some [], last_error := 0 } =
      ([], { enumerator := some (), current := some [], last_error := 0 },
        Except.error (WmiError.timeout "WMItimeout")) ∧
    (∀ m, WmiError.timeout "WMItimeout" ≠ WmiError.comException m) ∧
    (∀ m, WmiError.timeout "WMItimeout" ≠ WmiError.comTypeException m) :=
  c5_timeout_raises_and_preserves_state
    { enumerator := some (), current := some [], last_error := 0 } [] [] rfl

/-- C6: after at least one successful advance the cursor's current record is
non-null, and an advance that then reports "no more available"
(`WBEM_S_FALSE`) returns the state completely unchanged — in particular the
current record is still the one last retrieved, so its fields stay readable
through `contains`/`typeId`/`getVarByKey`. -/
theorem c6_no_more_leaves_current_readable (svc0 svc1 : List NextResp)
    (r0 r1 : ResultState) (h : Result.next svc0 r0 = (svc1, r1, Except.ok true))
    (o : WbemObject) (rest : List NextResp) :
    (∃ obj, r1.current = some obj) ∧
    Result.next ({ hres := WBEM_S_FALSE, obj := o } :: rest) r1 =
      (rest, r1, Except.ok false) := by
  rcases r0 with ⟨e0, c0, l0⟩
  cases e0 with
  | none =>
    rw [next_null_enum svc0 _ rfl] at h
    simp at h
  | some u =>
    cases u
    cases svc0 with
    | nil =>
      rw [show Result.next [] ⟨some (), c0, l0⟩ = ([], ⟨some (), c0, l0⟩, Except.ok false)
        from rfl] at h
      simp at h
    | cons resp rest0 =>
      rw [next_some_cons _ resp rest0 rfl] at h
      by_cases h0 : resp.hres = WBEM_NO_ERROR
      · rw [if_pos h0] at h
        have hr1 : r1 = { enumerator := some (), current := some resp.obj, last_error := l0 } := by
          have hc := congrArg (fun p => p.2.1) h
          simpa using hc.symm
        refine ⟨⟨resp.obj, by rw [hr1]⟩, ?_⟩
        rw [next_some_cons r1 _ rest (by rw [hr1])]
        simp [WBEM_S_FALSE, WBEM_NO_ERROR]
      · rw [if_neg h0] at h
        by_cases hf : resp.hres = WBEM_S_FALSE
        · rw [if_pos hf] at h
          simp at h
        · rw [if_neg hf] at h
          by_cases ht : resp.hres = WBEM_S_TIMEDOUT
          · rw [if_pos ht] at h
            simp at h
          · rw [if_neg ht] at h
            simp at h

/-- Witness for C6: a cursor that successfully retrieved a one-field record
keeps that record as current when the following advance reports no more. -/
theorem c6_witness :
    (∃ obj, ({ enumerator := some (),
               current := some [("Name", Except.ok { vt := 8, bits := 0, bstr := "System" })],
               last_error := 0 } : ResultState).current = some obj) ∧
    Result.next [({ hres := WBEM_S_FALSE, obj := [] } : NextResp)]
      { enumerator := some (),
        current := some [("Name", Except.ok { vt := 8, bits := 0, bstr := "System" })],
        last_error := 0 } =
      ([], { enumerator := some (),
             current := some [("Name", Except.ok { vt := 8, bits := 0, bstr := "System" })],
             last_error := 0 }, Except.ok false) :=
  c6_no_more_leaves_current_readable
    [{ hres := WBEM_NO_ERROR, obj := [("Name", Except.ok { vt := 8, bits := 0, bstr := "System" })] }]
    [] { enumerator := some (), current := none, last_error := 0 }
    { enumerator := some (),
      current := some [("Name", Except.ok { vt := 8, bits := 0, bstr := "System" })],
      last_error := 0 }
    (by decide) [] []

/-- C7: `ObjectWrapper::contains` never propagates a failure: it is a total
boolean function; a failing field fetch (any failing HRESULT, including the
`WBEM_E_NOT_FOUND` produced for a nonexistent field) yields `false`, a field
holding a `VT_NULL`-tagged value yields `false`, and a field holding any
non-null value yields `true`. -/
theorem c7_contains_never_propagates (obj : WbemObject) (key : String) :
    (∀ h, WbemObject.Get obj key = Except.error h → ObjectWrapper.contains obj key = false) ∧
    (List.lookup key obj = none → ObjectWrapper.contains obj key = false) ∧
    (∀ v, WbemObject.Get obj key = Except.ok v → v.vt = VT_NULL →
      ObjectWrapper.contains obj key = false) ∧
    (∀ v, WbemObject.Get obj key = Except.ok v → v.vt ≠ VT_NULL →
      ObjectWrapper.contains obj key = true) := by
  refine ⟨?_, ?_, ?_, ?_⟩
  · intro h heq
    simp [ObjectWrapper.contains, heq]
  · intro hnone
    simp [ObjectWrapper.contains, WbemObject.Get, hnone]
  · intro v heq hnull
    simp [ObjectWrapper.contains, heq, hnull]
  · intro v heq hnn
    simp [ObjectWrapper.contains, heq, hnn]

/-- Witness for C7 on a concrete record: a field whose fetch fails with a
transport error reads as absent, a nonexistent field reads as absent, a
`VT_NULL` field reads as absent, and a non-null field reads as present. -/
theorem c7_witness :
    ObjectWrapper.contains
      [("err", Except.error 0x80041015), ("null", Except.ok { vt := 1, bits := 0, bstr := "" }),
        ("name", Except.ok { vt := 8, bits := 0, bstr := "System" })] "err" = false ∧
    ObjectWrapper.contains
      [("err", Except.error 0x80041015), ("null", Except.ok { vt := 1, bits := 0, bstr := "" }),
        ("name", Except.ok { vt := 8, bits := 0, bstr := "System" })] "absent" = false ∧
    ObjectWrapper.contains
      [("err", Except.error 0x80041015), ("null", Except.ok { vt := 1, bits := 0, bstr := "" }),
        ("name", Except.ok { vt := 8, bits := 0, bstr := "System" })] "null" = false ∧
    ObjectWrapper.contains
      [("err", Except.error 0x80041015), ("null", Except.ok { vt := 1, bits := 0, bstr := "" }),
        ("name", Except.ok { vt := 8, bits := 0, bstr := "System" })] "name" = true := by
  refine ⟨(c7_contains_never_propagates _ "err").1 0x80041015 (by decide),
    (c7_contains_never_propagates _ "absent").2.1 (by decide),
    (c7_contains_never_propagates _ "null").2.2.1 { vt := 1, bits := 0, bstr := "" }
      (by decide) (by decide),
    (c7_contains_never_propagates _ "name").2.2.2 { vt := 8, bits := 0, bstr := "System" }
      (by decide) (by decide)⟩

/-- Decomposition of the `ComException` message around the resolved reason
text: operation description and `": "` in front, hexadecimal status code
behind. -/
theorem message_decompose (msg : String) (res : Nat) (generic : Nat → String) :
    ComException.message msg res generic =
      (msg ++ ": ") ++ ComException.resolveError res generic ++
        (" (" ++ ComException.toStringHex res ++ ")") := by
  simp [ComException.message, String.append_assoc]

/-- C8: every protocol failure message is the operation description followed
by the resolved human-readable reason and the raw status code in hexadecimal;
the four statuses invalid-namespace, access-denied, invalid-class and
invalid-query resolve directly to their fixed texts, every other status goes
through the generic system-error lookup; and a query rejected with
`WBEM_E_INVALID_QUERY` makes `Helper::query` raise a `ComException` whose
message contains "Invalid Query". -/
theorem c8_protocol_failure_message (msg : String) (res : Nat) (generic : Nat → String)
    (q : String) (stream : List NextResp) :
    ComException.message msg res generic =
      msg ++ ": " ++ ComException.resolveError res generic ++ " (" ++
        ComException.toStringHex res ++ ")" ∧
    (res = WBEM_E_INVALID_NAMESPACE →
      ComException.resolveError res generic = "Invalid Namespace") ∧
    (res = WBEM_E_ACCESS_DENIED → ComException.resolveError res generic = "Access Denied") ∧
    (res = WBEM_E_INVALID_CLASS → ComException.resolveError res generic = "Invalid Class") ∧
    (res = WBEM_E_INVALID_QUERY → ComException.resolveError res generic = "Invalid Query") ∧
    (res ≠ WBEM_E_INVALID_NAMESPACE → res ≠ WBEM_E_ACCESS_DENIED →
      res ≠ WBEM_E_INVALID_CLASS → res ≠ WBEM_E_INVALID_QUERY →
      ComException.resolveError res generic = generic res) ∧
    (∃ emsg, Helper.query q WBEM_E_INVALID_QUERY stream generic =
        Except.error (WmiError.comException emsg) ∧
      ∃ pre post, emsg = pre ++ "Invalid Query" ++ post) := by
  refine ⟨rfl, ?_, ?_, ?_, ?_, ?_, ?_⟩
  · intro he
    subst he
    rfl
  · intro he
    subst he
    rfl
  · intro he
    subst he
    rfl
  · intro he
    subst he
    rfl
  · intro h1 h2 h3 h4
    simp [ComException.resolveError, h1, h2, h3, h4]
  · refine ⟨ComException.message ("Failed to execute query \"" ++ q ++ "\"")
      WBEM_E_INVALID_QUERY generic, rfl, ("Failed to execute query \"" ++ q ++ "\"") ++ ": ",
      " (" ++ ComException.toStringHex WBEM_E_INVALID_QUERY ++ ")", ?_⟩
    have hd := message_decompose ("Failed to execute query \"" ++ q ++ "\"")
      WBEM_E_INVALID_QUERY generic
    rw [show ComException.resolveError WBEM_E_INVALID_QUERY generic = "Invalid Query"
      from rfl] at hd
    exact hd

/-- Witness for C8, applying the theorem at each of the four named statuses,
at a generic status (5), and for the malformed-query scenario. -/
theorem c8_witness :
    ComException.message "op" 5 (fun _ => "SystemText") =
      "op" ++ ": " ++ ComException.resolveError 5 (fun _ => "SystemText") ++ " (" ++
        ComException.toStringHex 5 ++ ")" ∧
    ComException.resolveError WBEM_E_INVALID_NAMESPACE (fun _ => "SystemText") =
      "Invalid Namespace" ∧
    ComException.resolveError WBEM_E_ACCESS_DENIED (fun _ => "SystemText") = "Access Denied" ∧
    ComException.resolveError WBEM_E_INVALID_CLASS (fun _ => "SystemText") = "Invalid Class" ∧
    ComException.resolveError WBEM_E_INVALID_QUERY (fun _ => "SystemText") = "Invalid Query" ∧
    ComException.resolveError 5 (fun _ => "SystemText") = "SystemText" ∧
    (∃ emsg, Helper.query "bogus" WBEM_E_INVALID_QUERY [] (fun _ => "SystemText") =
        Except.error (WmiError.comException emsg) ∧
      ∃ pre post, emsg = pre ++ "Invalid Query" ++ post) :=
  ⟨(c8_protocol_failure_message "op" 5 (fun _ => "SystemText") "bogus" []).1,
    (c8_protocol_failure_message "op" WBEM_E_INVALID_NAMESPACE (fun _ => "SystemText")
      "bogus" []).2.1 rfl,
    (c8_protocol_failure_message "op" WBEM_E_ACCESS_DENIED (fun _ => "SystemText")
      "bogus" []).2.2.1 rfl,
    (c8_protocol_failure_message "op" WBEM_E_INVALID_CLASS (fun _ => "SystemText")
      "bogus" []).2.2.2.1 rfl,
    (c8_protocol_failure_message "op" WBEM_E_INVALID_QUERY (fun _ => "SystemText")
      "bogus" []).2.2.2.2.1 rfl,
    (c8_protocol_failure_message "op" 5 (fun _ => "SystemText") "bogus" []).2.2.2.2.2.1
      (by decide) (by decide) (by decide) (by decide),
    (c8_protocol_failure_message "op" 5 (fun _ => "SystemText") "bogus" []).2.2.2.2.2.2⟩

theorem initN_fixed (env : COMEnv) (k : Nat) (s : COMState) (h : s.constructed = true) :
    COMManager.initN env k s = s := by
  induction k with
  | zero => rfl
  | succ n ih =>
    have hstep : (COMManager.init env s).1 = s := by
      simp [COMManager.init, h]
    calc COMManager.initN env (n + 1) s
        = COMManager.initN env n (COMManager.init env s).1 := rfl
      _ = COMManager.initN env n s := by rw [hstep]
      _ = s := ih

/-- C9: for every serialized sequence of `COMManager::init` calls in an
environment where both underlying calls succeed, the initialization sequence
— `CoInitializeEx` in `COINIT_MULTITHREADED` mode followed by
`CoInitializeSecurity` — runs exactly once: after any positive number of
calls each has run once and the guard is constructed, so no later call runs
it again.  Concurrent first use is serialized by the C++11 block-scope-static
guarantee the code relies on (its comment cites C++11 §6.4 / C++14 §6.7), so
every interleaving is one of the serialized sequences quantified here. -/
theorem c9_init_sequence_exactly_once (env : COMEnv) (n : Nat)
    (hEx : FAILED env.coInitExResult = false)
    (hSec : FAILED env.coInitSecurityResult = false) (hn : 1 ≤ n) :
    COMManager.initN env n freshCOMState =
      { constructed := true, coInitExRuns := 1, coInitSecurityRuns := 1 } := by
  cases n with
  | zero => exact absurd hn (by decide)
  | succ m =>
    have h1 : (COMManager.init env freshCOMState).1 =
        { constructed := true, coInitExRuns := 1, coInitSecurityRuns := 1 } := by
      simp [COMManager.init, freshCOMState, hEx, hSec]
    calc COMManager.initN env (m + 1) freshCOMState
        = COMManager.initN env m (COMManager.init env freshCOMState).1 := rfl
      _ = COMManager.initN env m
          { constructed := true, coInitExRuns := 1, coInitSecurityRuns := 1 } := by rw [h1]
      _ = { constructed := true, coInitExRuns := 1, coInitSecurityRuns := 1 } :=
        initN_fixed env m _ rfl

/-- Witness for C9: three successive `init` calls in a succeeding environment
leave each underlying call executed exactly once. -/
theorem c9_witness :
    FAILED (0 : Nat) = false ∧ 1 ≤ 3 ∧
    COMManager.initN
      { coInitExResult := 0, coInitSecurityResult := 0, generic := fun _ => "" } 3
      freshCOMState =
      { constructed := true, coInitExRuns := 1, coInitSecurityRuns := 1 } :=
  ⟨by decide, by decide,
    c9_init_sequence_exactly_once
      { coInitExResult := 0, coInitSecurityResult := 0, generic := fun _ => "" } 3
      (by decide) (by decide) (by decide)⟩

/-- C10: when the request itself is accepted (non-failing HRESULT) but the
implicit first advance performed by the `Result` constructor receives the
timeout status, the `Timeout` exception propagates out of the constructor and
out of both `Helper::query` and `Helper::getClass`, even though the caller
never called `next` explicitly. -/
theorem c10_constructor_timeout_escapes (q cn : String) (res : Nat)
    (hok : FAILED res = false) (obj : WbemObject) (rest : List NextResp)
    (generic : Nat → String) :
    Helper.query q res ({ hres := WBEM_S_TIMEDOUT, obj := obj } :: rest) generic =
      Except.error (WmiError.timeout "WMItimeout") ∧
    Helper.getClass cn res ({ hres := WBEM_S_TIMEDOUT, obj := obj } :: rest) generic =
      Except.error (WmiError.timeout "WMItimeout") := by
  have hc : (Result.construct ({ hres := WBEM_S_TIMEDOUT, obj := obj } :: rest)).2 =
      Except.error (WmiError.timeout "WMItimeout") := by
    rw [construct_cons]
    simp [WBEM_S_TIMEDOUT, WBEM_NO_ERROR, WBEM_S_FALSE]
  constructor
  · simp [Helper.query, hok, hc]
  · simp [Helper.getClass, hok, hc]

/-- Witness for C10 with a successful `ExecQuery`/`CreateInstanceEnum`
(HRESULT 0) and a first response that times out. -/
theorem c10_witness :
    FAILED (0 : Nat) = false ∧
    Helper.query "SELECT Name FROM Win32_Process" 0
      [({ hres := WBEM_S_TIMEDOUT, obj := [] } : NextResp)] (fun _ => "") =
      Except.error (WmiError.timeout "WMItimeout") ∧
    Helper.getClass "Win32_Process" 0
      [({ hres := WBEM_S_TIMEDOUT, obj := [] } : NextResp)] (fun _ => "") =
      Except.error (WmiError.timeout "WMItimeout") :=
  ⟨by decide,
    (c10_constructor_timeout_escapes "SELECT Name FROM Win32_Process" "Win32_Process" 0
      (by decide) [] [] (fun _ => "")).1,
    (c10_constructor_timeout_escapes "SELECT Name FROM Win32_Process" "Win32_Process" 0
      (by decide) [] [] (fun _ => "")).2⟩

end wmi
